import Mathlib

/-!
Formal model of the nutrition-calculator core of `src/nutritionapp/app.py`.

The Python helpers are pure arithmetic over floats; we embed them over `ℚ`.
Python's `round(v, 1)` is modelled by `pyRound1` (round to nearest tenth,
half rounded up).  At every boundary value appearing in this development the
Python float result agrees with this model: e.g. `round(2.45, 1) = 2.5` in
Python because the IEEE double nearest to 2.45 lies strictly above 2.45, so
the rounding direction there is upward, exactly as `pyRound1` gives.
A Python `KeyError` raised by a failed dict lookup is modelled as the
`Err.invalidInput` error of an `Except` result.
-/

namespace NutritionApp

/-- Error raised on an unknown enum key (a failed dict lookup in the code). -/
inductive Err where
  | invalidInput
deriving DecidableEq, Repr

/-- Python `round(x, 1)` on the exact rational value: round `10*x` to the
nearest integer (halves up) and divide by 10. -/
def pyRound1 (x : ℚ) : ℚ := ((round (10 * x) : ℤ) : ℚ) / 10

/-- `MACRO_PRESETS` dict of app.py lines 19-24, as a lookup from the preset
name to the `(carb, protein, fat)` ratio triple. -/
def MACRO_PRESETS (preset : String) : Option (ℚ × ℚ × ℚ) :=
  if preset = "Balanced (40/30/30)" then some (40/100, 30/100, 30/100)
  else if preset = "High Protein (30/40/30)" then some (30/100, 40/100, 30/100)
  else if preset = "Lower Carb (35/30/35)" then some (35/100, 30/100, 35/100)
  else if preset = "High Carb / Low Fat (50/30/20)" then some (50/100, 30/100, 20/100)
  else none

/-- `MET_VALUES` dict of app.py lines 26-35. -/
def MET_VALUES (activity : String) : Option ℚ :=
  if activity = "Select an activity..." then some 0
  else if activity = "Running (Slow, 10 min/mile)" then some (98/10)
  else if activity = "Running (Fast, 7 min/mile)" then some (128/10)
  else if activity = "Cycling (Moderate, 12-14 mph)" then some 8
  else if activity = "Weightlifting (Vigorous)" then some 6
  else if activity = "Walking (Brisk, 3.5 mph)" then some (38/10)
  else if activity = "Yoga" then some (25/10)
  else if activity = "Swimming (Moderate)" then some 7
  else none

/-- `calculate_bmr` (app.py lines 89-95): Mifflin-St Jeor; any sex string
other than "Male" takes the `else` (Female) branch. -/
def calculate_bmr (weight_kg height_cm age : ℚ) (sex : String) : ℚ :=
  if sex = "Male" then
    10 * weight_kg + 625/100 * height_cm - 5 * age + 5
  else
    10 * weight_kg + 625/100 * height_cm - 5 * age - 161

/-- The `activity_multipliers` dict local to `get_tdee` (app.py lines 100-106). -/
def activity_multipliers (activity_level : String) : Option ℚ :=
  if activity_level = "Sedentary (little or no exercise)" then some (12/10)
  else if activity_level = "Lightly Active (light exercise/sports 1-3 days/week)" then some (1375/1000)
  else if activity_level = "Moderately Active (moderate exercise/sports 3-5 days/week)" then some (155/100)
  else if activity_level = "Very Active (hard exercise/sports 6-7 days a week)" then some (1725/1000)
  else if activity_level = "Extra Active (very hard exercise/sports & physical job)" then some (19/10)
  else none

/-- `get_tdee` (app.py lines 98-107): `bmr * activity_multipliers[activity_level]`;
an unknown key raises (modelled as `Err.invalidInput`). -/
def get_tdee (bmr : ℚ) (activity_level : String) : Except Err ℚ :=
  match activity_multipliers activity_level with
  | some m => Except.ok (bmr * m)
  | none => Except.error Err.invalidInput

/-- The result dict of `get_macros` (app.py lines 131-137), every value
rounded to one decimal by the final dict comprehension. -/
structure MacroResult where
  calories : ℚ
  protein_g : ℚ
  protein_cal : ℚ
  fat_g : ℚ
  fat_cal : ℚ
  carbs_g : ℚ
  carbs_cal : ℚ
deriving DecidableEq, Repr

/-- The `macros` dict built at app.py lines 122-137 from the clamped target
calories and the preset ratios (grams are calories over 4/4/9). -/
def macrosDict (target_calories c_ratio p_ratio f_ratio : ℚ) : MacroResult :=
  { calories := pyRound1 target_calories
    protein_g := pyRound1 (target_calories * p_ratio / 4)
    protein_cal := pyRound1 (target_calories * p_ratio)
    fat_g := pyRound1 (target_calories * f_ratio / 9)
    fat_cal := pyRound1 (target_calories * f_ratio)
    carbs_g := pyRound1 (target_calories * c_ratio / 4)
    carbs_cal := pyRound1 (target_calories * c_ratio) }

/-- `get_macros` (app.py lines 110-137): target is the TDEE clamped below at
1200; unknown preset raises (modelled as `Err.invalidInput`). -/
def get_macros (tdee : ℚ) (macro_ratio_preset : String) : Except Err MacroResult :=
  match MACRO_PRESETS macro_ratio_preset with
  | none => Except.error Err.invalidInput
  | some (c_ratio, p_ratio, f_ratio) =>
      Except.ok (macrosDict (if tdee < 1200 then (1200 : ℚ) else tdee) c_ratio p_ratio f_ratio)

/-- `calculate_water_intake` (app.py lines 140-142). -/
def calculate_water_intake (weight_kg : ℚ) : ℚ :=
  pyRound1 (weight_kg * 35 / 1000)

/-- The elif category chain of `calculate_bmi` (app.py lines 150-157),
conditions written exactly as in the code. -/
def bmiCategoryChain (bmi : ℚ) : String :=
  if bmi < 37/2 then "Underweight"
  else if 37/2 ≤ bmi ∧ bmi < 25 then "Healthy Weight"
  else if 25 ≤ bmi ∧ bmi < 30 then "Overweight"
  else "Obese"

/-- `calculate_bmi` (app.py lines 145-158): sentinel `(0, "N/A")` for
non-positive height, otherwise rounded BMI and its category. -/
def calculate_bmi (weight_kg height_cm : ℚ) : ℚ × String :=
  if height_cm ≤ 0 then (0, "N/A")
  else
    let bmi := pyRound1 (weight_kg / ((height_cm / 100) ^ 2))
    (bmi, bmiCategoryChain bmi)

/-- Category thresholds exactly as the spec words them (section 4):
bmi < 18.5 Underweight; 18.5 ≤ bmi < 25 Healthy Weight; 25 ≤ bmi < 30
Overweight; bmi ≥ 30 Obese.  Used to compare against the code's chain. -/
def bmiCategorySpec (bmi : ℚ) : String :=
  if bmi < 37/2 then "Underweight"
  else if bmi < 25 then "Healthy Weight"
  else if bmi < 30 then "Overweight"
  else "Obese"

/-- The exercise estimator of tab 3 (app.py lines 500-521): the sentinel
activity name short-circuits to no result; otherwise
`floor(met * weight * duration/60)` with `MET_VALUES.get(activity, 0.0)`. -/
def tab3_exercise_estimate (activity : String) (current_weight_kg duration : ℚ) : Option ℤ :=
  if activity ≠ "Select an activity..." then
    some ⌊((MET_VALUES activity).getD 0) * current_weight_kg * (duration / 60)⌋
  else none

/-- Modelled from the spec: `compute_goal_timeline` is specified in section 4
of the spec but has no implementation anywhere in `src/` (the app has no
goal-timeline feature).  Spec words: returns 0 if `daily_deficit <= 0` or
`current <= target`, otherwise `ceil((current-target)*7700 / daily_deficit / 7)`
weeks. -/
def compute_goal_timeline (current_weight_kg target_weight_kg daily_deficit : ℚ) : ℤ :=
  if daily_deficit ≤ 0 ∨ current_weight_kg ≤ target_weight_kg then 0
  else ⌈(current_weight_kg - target_weight_kg) * 7700 / daily_deficit / 7⌉

/-- The five known activity-level names (the keys of `activity_multipliers`). -/
def knownActivityLevels : List String :=
  ["Sedentary (little or no exercise)",
   "Lightly Active (light exercise/sports 1-3 days/week)",
   "Moderately Active (moderate exercise/sports 3-5 days/week)",
   "Very Active (hard exercise/sports 6-7 days a week)",
   "Extra Active (very hard exercise/sports & physical job)"]

/-- The four known macro preset names (the keys of `MACRO_PRESETS`). -/
def knownPresetNames : List String :=
  ["Balanced (40/30/30)",
   "High Protein (30/40/30)",
   "Lower Carb (35/30/35)",
   "High Carb / Low Fat (50/30/20)"]

/-! ### Helper lemmas about `pyRound1` -/

lemma pyRound1_sub_le (x : ℚ) : |pyRound1 x - x| ≤ 1/20 := by
  have h : |10 * x - ((round (10 * x) : ℤ) : ℚ)| ≤ 1/2 := abs_sub_round (10 * x)
  rw [abs_sub_comm] at h
  have hx : pyRound1 x - x = (((round (10 * x) : ℤ) : ℚ) - 10 * x) / 10 := by
    unfold pyRound1; ring
  rw [hx, abs_div]
  rw [show |(10 : ℚ)| = 10 by norm_num]
  linarith

lemma pyRound1_mono {x y : ℚ} (h : x ≤ y) : pyRound1 x ≤ pyRound1 y := by
  unfold pyRound1
  have hr : round (10 * x) ≤ round (10 * y) := by
    rw [round_eq, round_eq]
    exact Int.floor_mono (by linarith)
  have : ((round (10 * x) : ℤ) : ℚ) ≤ ((round (10 * y) : ℤ) : ℚ) := by
    exact_mod_cast hr
  linarith

lemma pyRound1_1200 : pyRound1 1200 = 1200 := by
  unfold pyRound1
  rw [round_eq]
  norm_num

/-- For ratios summing to 1, the three rounded macro calories differ from the
rounded target by at most 1/5 (four roundings of at most 1/20 each). -/
lemma macro_sum_close (t c p f : ℚ) (hcpf : c + p + f = 1) :
    |pyRound1 (t * p) + pyRound1 (t * c) + pyRound1 (t * f) - pyRound1 t| ≤ 1/5 := by
  have h1 := pyRound1_sub_le (t * p)
  have h2 := pyRound1_sub_le (t * c)
  have h3 := pyRound1_sub_le (t * f)
  have h4 := pyRound1_sub_le t
  have hsum : t * p + t * c + t * f = t := by
    have : t * p + t * c + t * f = t * (c + p + f) := by ring
    rw [this, hcpf, mul_one]
  rw [abs_le] at h1 h2 h3 h4 ⊢
  constructor <;> linarith

/-- Every triple stored in `MACRO_PRESETS` has ratios summing to 1. -/
lemma MACRO_PRESETS_sum {preset : String} {c p f : ℚ}
    (h : MACRO_PRESETS preset = some (c, p, f)) : c + p + f = 1 := by
  unfold MACRO_PRESETS at h
  split_ifs at h <;>
    simp only [Option.some.injEq, Prod.mk.injEq] at h
  all_goals obtain ⟨h1, h2, h3⟩ := h; subst h1; subst h2; subst h3; norm_num

/-- On a known preset, `get_macros` reduces to `macrosDict` on the clamped target. -/
lemma get_macros_ok {preset : String} {c p f : ℚ} (tdee : ℚ)
    (h : MACRO_PRESETS preset = some (c, p, f)) :
    get_macros tdee preset =
      Except.ok (macrosDict (if tdee < 1200 then (1200 : ℚ) else tdee) c p f) := by
  unfold get_macros
  rw [h]

/-- The clamp in `get_macros` is exactly `max tdee 1200`. -/
lemma clamp_eq_max (tdee : ℚ) : (if tdee < 1200 then (1200 : ℚ) else tdee) = max tdee 1200 := by
  rcases lt_or_le tdee 1200 with h | h
  · rw [if_pos h, max_eq_right h.le]
  · rw [if_neg (not_lt.mpr h), max_eq_left h]

/-- On an unknown preset, `get_macros` fails. -/
lemma get_macros_none {preset : String} (tdee : ℚ) (h : MACRO_PRESETS preset = none) :
    get_macros tdee preset = Except.error Err.invalidInput := by
  unfold get_macros
  rw [h]

/-- On an unknown activity level, `get_tdee` fails. -/
lemma get_tdee_none {level : String} (bmr : ℚ) (h : activity_multipliers level = none) :
    get_tdee bmr level = Except.error Err.invalidInput := by
  unfold get_tdee
  rw [h]

/-- The code's elif category chain agrees with the spec's threshold wording. -/
lemma bmiCategoryChain_eq_spec (b : ℚ) : bmiCategoryChain b = bmiCategorySpec b := by
  unfold bmiCategoryChain bmiCategorySpec
  rcases lt_or_le b (37/2) with h1 | h1
  · rw [if_pos h1, if_pos h1]
  · rw [if_neg (not_lt.mpr h1), if_neg (not_lt.mpr h1)]
    rcases lt_or_le b 25 with h2 | h2
    · rw [if_pos ⟨h1, h2⟩, if_pos h2]
    · rw [if_neg (fun hc => absurd hc.2 (not_lt.mpr h2)), if_neg (not_lt.mpr h2)]
      rcases lt_or_le b 30 with h3 | h3
      · rw [if_pos ⟨h2, h3⟩, if_pos h3]
      · rw [if_neg (fun hc => absurd hc.2 (not_lt.mpr h3)), if_neg (not_lt.mpr h3)]

/-! ### Claims -/

/-- C3: for positive weight, height and age, `calculate_bmr` returns exactly
the Mifflin-St Jeor value: `10*w + 6.25*h - 5*age + 5` for Male and
`10*w + 6.25*h - 5*age - 161` for Female. -/
theorem claim_C3 (w hcm a : ℚ) (_hw : 0 < w) (_hh : 0 < hcm) (_ha : 0 < a) :
    calculate_bmr w hcm a "Male" = 10 * w + 625/100 * hcm - 5 * a + 5 ∧
    calculate_bmr w hcm a "Female" = 10 * w + 625/100 * hcm - 5 * a - 161 := by
  constructor <;> simp [calculate_bmr]

theorem claim_C3_witness :
    calculate_bmr 70 170 25 "Male" = 10 * 70 + 625/100 * 170 - 5 * 25 + 5 ∧
    calculate_bmr 70 170 25 "Female" = 10 * 70 + 625/100 * 170 - 5 * 25 - 161 :=
  claim_C3 70 170 25 (by norm_num) (by norm_num) (by norm_num)

/-- C10: every sex string other than exactly "Male" takes the Female branch
of `calculate_bmr` (offset -161) and returns a value; nothing is rejected. -/
theorem claim_C10 (sex : String) (hs : sex ≠ "Male") (w hcm a : ℚ) :
    calculate_bmr w hcm a sex = 10 * w + 625/100 * hcm - 5 * a - 161 := by
  simp [calculate_bmr, hs]

theorem claim_C10_witness :
    calculate_bmr 70 170 25 "Unknown" = 10 * 70 + 625/100 * 170 - 5 * 25 - 161 :=
  claim_C10 "Unknown" (by decide) 70 170 25

/-- C7: `calculate_water_intake` is `round(weight*35/1000, 1)`; at weight 70
the unrounded value is exactly 2.45 and the result rounds upward to 2.5. -/
theorem claim_C7 :
    (∀ w : ℚ, calculate_water_intake w = pyRound1 (w * 35 / 1000)) ∧
    (70 * 35 / 1000 : ℚ) = 49/20 ∧
    calculate_water_intake 70 = 5/2 ∧
    (49/20 : ℚ) < 5/2 := by
  refine ⟨fun w => rfl, by norm_num, ?_, by norm_num⟩
  unfold calculate_water_intake pyRound1
  rw [round_eq]
  norm_num

/-- C1 counterexample: at tdee = 1300.26 with the Balanced preset the
returned `calories` field is the rounded value 1300.3, which differs from
`max(tdee, 1200) = 1300.26`. -/
theorem claim_C1_counterexample :
    Except.map MacroResult.calories (get_macros (130026/100) "Balanced (40/30/30)") =
      Except.ok (13003/10 : ℚ) ∧
    (13003/10 : ℚ) ≠ max (130026/100) 1200 := by
  constructor
  · rw [get_macros_ok (130026/100)
      (show MACRO_PRESETS "Balanced (40/30/30)" = some (40/100, 30/100, 30/100) from rfl)]
    have hif : (if (130026/100 : ℚ) < 1200 then (1200 : ℚ) else 130026/100) = 130026/100 := by
      norm_num
    rw [hif]
    show Except.ok (pyRound1 (130026/100)) = Except.ok (13003/10 : ℚ)
    unfold pyRound1
    rw [round_eq]
    norm_num
  · have : max (130026/100 : ℚ) 1200 = 130026/100 := max_eq_left (by norm_num)
    rw [this]
    norm_num

/-- C1 (amended): for every tdee and every known preset, the returned
`calories` field equals `max(tdee, 1200)` rounded to one decimal, and in
particular is never below 1200. -/
theorem claim_C1 (tdee : ℚ) (preset : String) (r : MacroResult)
    (h : get_macros tdee preset = Except.ok r) :
    r.calories = pyRound1 (max tdee 1200) ∧ 1200 ≤ r.calories := by
  rcases hm : MACRO_PRESETS preset with _ | ⟨⟨c, p, f⟩⟩
  · rw [get_macros_none tdee hm] at h
    simp at h
  · rw [get_macros_ok tdee hm] at h
    simp only [Except.ok.injEq] at h
    subst h
    constructor
    · show pyRound1 (if tdee < 1200 then (1200 : ℚ) else tdee) = pyRound1 (max tdee 1200)
      rw [clamp_eq_max]
    · show (1200 : ℚ) ≤ pyRound1 (if tdee < 1200 then (1200 : ℚ) else tdee)
      rw [clamp_eq_max]
      have := pyRound1_mono (le_max_right tdee 1200)
      rw [pyRound1_1200] at this
      exact this

theorem claim_C1_witness :
    (macrosDict (if (1000 : ℚ) < 1200 then (1200 : ℚ) else 1000) (40/100) (30/100) (30/100)).calories =
      pyRound1 (max 1000 1200) ∧
    (1200 : ℚ) ≤ (macrosDict (if (1000 : ℚ) < 1200 then (1200 : ℚ) else 1000) (40/100) (30/100) (30/100)).calories :=
  claim_C1 1000 "Balanced (40/30/30)" _ (get_macros_ok 1000 rfl)

/-- C2: for every tdee and every known preset, the rounded macro calories sum
to the returned calories within 0.2 kcal, and the preset ratios sum to 1. -/
theorem claim_C2 (tdee : ℚ) (preset : String) (c p f : ℚ) (r : MacroResult)
    (hp : MACRO_PRESETS preset = some (c, p, f))
    (hr : get_macros tdee preset = Except.ok r) :
    |r.protein_cal + r.carbs_cal + r.fat_cal - r.calories| ≤ 2/10 ∧ c + p + f = 1 := by
  have hsum := MACRO_PRESETS_sum hp
  rw [get_macros_ok tdee hp] at hr
  simp only [Except.ok.injEq] at hr
  subst hr
  refine ⟨?_, hsum⟩
  show |pyRound1 ((if tdee < 1200 then (1200 : ℚ) else tdee) * p) +
        pyRound1 ((if tdee < 1200 then (1200 : ℚ) else tdee) * c) +
        pyRound1 ((if tdee < 1200 then (1200 : ℚ) else tdee) * f) -
        pyRound1 (if tdee < 1200 then (1200 : ℚ) else tdee)| ≤ 2/10
  have h := macro_sum_close (if tdee < 1200 then (1200 : ℚ) else tdee) c p f hsum
  have h20 : (1/5 : ℚ) = 2/10 := by norm_num
  rw [h20] at h
  exact h

theorem claim_C2_witness :
    |(macrosDict (if (2000 : ℚ) < 1200 then (1200 : ℚ) else 2000) (40/100) (30/100) (30/100)).protein_cal +
      (macrosDict (if (2000 : ℚ) < 1200 then (1200 : ℚ) else 2000) (40/100) (30/100) (30/100)).carbs_cal +
      (macrosDict (if (2000 : ℚ) < 1200 then (1200 : ℚ) else 2000) (40/100) (30/100) (30/100)).fat_cal -
      (macrosDict (if (2000 : ℚ) < 1200 then (1200 : ℚ) else 2000) (40/100) (30/100) (30/100)).calories| ≤ 2/10 ∧
    (40/100 : ℚ) + 30/100 + 30/100 = 1 :=
  claim_C2 2000 "Balanced (40/30/30)" (40/100) (30/100) (30/100) _ rfl (get_macros_ok 2000 rfl)

/-- C4: `calculate_bmi` returns the `(0, "N/A")` sentinel (not an error) for
non-positive height, otherwise the rounded BMI with the spec's threshold
category; at (70, 170) it returns (24.2, "Healthy Weight"). -/
theorem claim_C4 :
    (∀ w hcm : ℚ,
      (hcm ≤ 0 → calculate_bmi w hcm = (0, "N/A")) ∧
      (0 < hcm →
        calculate_bmi w hcm =
          (pyRound1 (w / (hcm / 100) ^ 2), bmiCategorySpec (pyRound1 (w / (hcm / 100) ^ 2))))) ∧
    calculate_bmi 70 170 = (121/5, "Healthy Weight") := by
  constructor
  · intro w hcm
    constructor
    · intro hle
      unfold calculate_bmi
      rw [if_pos hle]
    · intro hpos
      unfold calculate_bmi
      rw [if_neg (not_le.mpr hpos)]
      show (pyRound1 (w / (hcm / 100) ^ 2), bmiCategoryChain (pyRound1 (w / (hcm / 100) ^ 2))) = _
      rw [bmiCategoryChain_eq_spec]
  · unfold calculate_bmi
    rw [if_neg (by norm_num : ¬ (170 : ℚ) ≤ 0)]
    show (pyRound1 ((70 : ℚ) / ((170 : ℚ) / 100) ^ 2),
          bmiCategoryChain (pyRound1 ((70 : ℚ) / ((170 : ℚ) / 100) ^ 2))) = (121/5, "Healthy Weight")
    have hb : pyRound1 ((70 : ℚ) / ((170 : ℚ) / 100) ^ 2) = 121/5 := by
      unfold pyRound1
      rw [round_eq]
      norm_num
    rw [hb]
    unfold bmiCategoryChain
    norm_num

theorem claim_C4_witness : calculate_bmi 70 (-1) = (0, "N/A") :=
  (claim_C4.1 70 (-1)).1 (by norm_num)

/-- C5: `compute_goal_timeline` (modelled from the spec, absent from src)
returns 0 weeks when the deficit is non-positive or the target is not below
the current weight, otherwise the ceiling formula; at (90, 80, 500) the
literal formula gives (90-80)*7700/500 = 154 and ceil(154/7) = 22 weeks. -/
theorem claim_C5 :
    (∀ c t d : ℚ, d ≤ 0 ∨ c ≤ t → compute_goal_timeline c t d = 0) ∧
    (∀ c t d : ℚ, 0 < d → t < c →
      compute_goal_timeline c t d = ⌈(c - t) * 7700 / d / 7⌉) ∧
    compute_goal_timeline 90 80 500 = 22 ∧
    ((90 - 80 : ℚ) * 7700 / 500 : ℚ) = 154 ∧
    (⌈(154 : ℚ) / 7⌉ : ℤ) = 22 := by
  refine ⟨?_, ?_, ?_, by norm_num, by norm_num⟩
  · intro c t d h
    unfold compute_goal_timeline
    rw [if_pos h]
  · intro c t d hd hct
    unfold compute_goal_timeline
    rw [if_neg (not_or.mpr ⟨not_le.mpr hd, not_le.mpr hct⟩)]
  · unfold compute_goal_timeline
    rw [if_neg (by norm_num : ¬ ((500 : ℚ) ≤ 0 ∨ (90 : ℚ) ≤ 80))]
    norm_num

theorem claim_C5_witness : compute_goal_timeline 80 90 500 = 0 :=
  claim_C5.1 80 90 500 (Or.inr (by norm_num))

/-- C6: an activity level outside the five known ones makes `get_tdee` fail
with `invalidInput` (no default multiplier), and a preset outside the four
known ones makes `get_macros` fail with `invalidInput`. -/
theorem claim_C6 (bmr tdee : ℚ) (level preset : String)
    (hl : level ∉ knownActivityLevels) (hp : preset ∉ knownPresetNames) :
    get_tdee bmr level = Except.error Err.invalidInput ∧
    get_macros tdee preset = Except.error Err.invalidInput := by
  constructor
  · apply get_tdee_none
    simp only [knownActivityLevels, List.mem_cons, List.not_mem_nil, or_false] at hl
    push_neg at hl
    obtain ⟨h1, h2, h3, h4, h5⟩ := hl
    simp [activity_multipliers, h1, h2, h3, h4, h5]
  · apply get_macros_none
    simp only [knownPresetNames, List.mem_cons, List.not_mem_nil, or_false] at hp
    push_neg at hp
    obtain ⟨h1, h2, h3, h4⟩ := hp
    simp [MACRO_PRESETS, h1, h2, h3, h4]

theorem claim_C6_witness :
    get_tdee 1500 "Unknown" = Except.error Err.invalidInput ∧
    get_macros 2000 "Unknown" = Except.error Err.invalidInput :=
  claim_C6 1500 2000 "Unknown" "Unknown" (by decide) (by decide)

/-- C8: the tab-3 estimate is `floor(met * weight * duration/60)` — at
met 9.8, weight 70, duration 30 it is 343 — and any activity whose MET value
is the 0 sentinel short-circuits to no result instead of a real 0 estimate. -/
theorem claim_C8 :
    tab3_exercise_estimate "Running (Slow, 10 min/mile)" 70 30 = some 343 ∧
    MET_VALUES "Running (Slow, 10 min/mile)" = some (98/10) ∧
    MET_VALUES "Select an activity..." = some 0 ∧
    (∀ a : String, MET_VALUES a = some 0 → ∀ w d : ℚ, tab3_exercise_estimate a w d = none) := by
  refine ⟨?_, rfl, rfl, ?_⟩
  · unfold tab3_exercise_estimate
    rw [if_pos (by decide : ("Running (Slow, 10 min/mile)" : String) ≠ "Select an activity...")]
    rw [show MET_VALUES "Running (Slow, 10 min/mile)" = some (98/10) from rfl]
    rw [Option.getD_some]
    norm_num
  · intro a ha w d
    unfold tab3_exercise_estimate
    by_cases hs : a = "Select an activity..."
    · rw [if_neg (not_not_intro hs)]
    · exfalso
      unfold MET_VALUES at ha
      rw [if_neg hs] at ha
      split_ifs at ha <;> norm_num at ha

theorem claim_C8_witness : tab3_exercise_estimate "Select an activity..." 70 30 = none :=
  claim_C8.2.2.2 "Select an activity..." rfl 70 30

/-- C9 counterexample: at bmr = 0 all activity levels give the same TDEE 0,
so the TDEE is not strictly increasing across levels for every bmr. -/
theorem claim_C9_counterexample :
    get_tdee 0 "Sedentary (little or no exercise)" = Except.ok 0 ∧
    get_tdee 0 "Lightly Active (light exercise/sports 1-3 days/week)" = Except.ok 0 ∧
    ¬ ((0 : ℚ) < 0) := by
  refine ⟨?_, ?_, lt_irrefl 0⟩
  · rw [show get_tdee 0 "Sedentary (little or no exercise)" = Except.ok (0 * (12/10)) from rfl]
    norm_num
  · rw [show get_tdee 0 "Lightly Active (light exercise/sports 1-3 days/week)" =
        Except.ok (0 * (1375/1000)) from rfl]
    norm_num

/-- C9 (amended): for every positive bmr, `get_tdee` is strictly increasing
across the five activity levels in multiplier order. -/
theorem claim_C9 (bmr : ℚ) (hb : 0 < bmr) :
    get_tdee bmr "Sedentary (little or no exercise)" = Except.ok (bmr * (12/10)) ∧
    get_tdee bmr "Lightly Active (light exercise/sports 1-3 days/week)" = Except.ok (bmr * (1375/1000)) ∧
    get_tdee bmr "Moderately Active (moderate exercise/sports 3-5 days/week)" = Except.ok (bmr * (155/100)) ∧
    get_tdee bmr "Very Active (hard exercise/sports 6-7 days a week)" = Except.ok (bmr * (1725/1000)) ∧
    get_tdee bmr "Extra Active (very hard exercise/sports & physical job)" = Except.ok (bmr * (19/10)) ∧
    bmr * (12/10) < bmr * (1375/1000) ∧
    bmr * (1375/1000) < bmr * (155/100) ∧
    bmr * (155/100) < bmr * (1725/1000) ∧
    bmr * (1725/1000) < bmr * (19/10) := by
  refine ⟨rfl, rfl, rfl, rfl, rfl, ?_, ?_, ?_, ?_⟩ <;>
    exact mul_lt_mul_of_pos_left (by norm_num) hb

theorem claim_C9_witness :
    get_tdee 1000 "Sedentary (little or no exercise)" = Except.ok (1000 * (12/10)) ∧
    get_tdee 1000 "Lightly Active (light exercise/sports 1-3 days/week)" = Except.ok (1000 * (1375/1000)) ∧
    get_tdee 1000 "Moderately Active (moderate exercise/sports 3-5 days/week)" = Except.ok (1000 * (155/100)) ∧
    get_tdee 1000 "Very Active (hard exercise/sports 6-7 days a week)" = Except.ok (1000 * (1725/1000)) ∧
    get_tdee 1000 "Extra Active (very hard exercise/sports & physical job)" = Except.ok (1000 * (19/10)) ∧
    (1000 : ℚ) * (12/10) < 1000 * (1375/1000) ∧
    (1000 : ℚ) * (1375/1000) < 1000 * (155/100) ∧
    (1000 : ℚ) * (155/100) < 1000 * (1725/1000) ∧
    (1000 : ℚ) * (1725/1000) < 1000 * (19/10) :=
  claim_C9 1000 (by norm_num)

end NutritionApp
